import Mathlib

/-!
Verification of the web-button-watcher monitoring core.

This file gives a shallow embedding of the change-monitoring loop and its
collaborators, translated from the repository sources:

* `src/src/web_button_watcher/core/button_monitor.py` (`ButtonMonitor`):
  `check_button_changes`, `notify_changes`, `store_original_texts`,
  `start_monitoring` and its recovery policy;
* `src/src/web_button_watcher/utils/notifier.py` (`TelegramNotifier`):
  the chat message format of `notify_button_clicked`;
* `src/src/web_button_watcher/utils/settings.py` (`SettingsManager`);
* `src/webbuttonwatcher/core/driver_manager.py` (`DriverManager.navigate_to`,
  `DriverManager.refresh_page`);
* `src/webbuttonwatcher/core/button_selector.py` (the in-page selection state
  mutated by overlay clicks) and `src/webbuttonwatcher/core/monitor.py`
  (`PageMonitor.start`).

Python dictionaries (`original_texts`, the settings document) are modelled as
association lists with first-match lookup and in-place overwrite; page state is
a list of the text of every `<button>` element in document order; browser and
network effects are inputs (per-iteration outcomes, success flags).

Note on string literals: the notification literals in `button_monitor.py` do
not start with the bell emoji U+1F514; the file contains the four characters
U+F8FF, U+00FC, U+00EE, U+00EE (a mis-encoded bell). The embedding reproduces
the literal bytes of the source exactly.
-/

namespace WebButtonWatcher

/-- The text stored for a mis-encoded bell emoji in `button_monitor.py`
(lines 145, 150, 155): the four characters U+F8FF, U+00FC, U+00EE, U+00EE. -/
def bellMojibake : String := "\uF8FF\u00FC\u00EE\u00EE"

/-! ### Association-list model of Python dict `self.original_texts` -/

/-- Lookup in the `original_texts` mapping (Python `d[idx]` / `idx in d`). -/
def lookupText : List (Nat × String) → Nat → Option String
  | [], _ => none
  | (k, v) :: rest, i => if k = i then some v else lookupText rest i

/-- Overwrite in the `original_texts` mapping (Python `d[idx] = v`). -/
def setText : List (Nat × String) → Nat → String → List (Nat × String)
  | [], i, v => [(i, v)]
  | (k, w) :: rest, i, v =>
      if k = i then (i, v) :: rest else (k, w) :: setText rest i v

/-! ### ButtonMonitor.check_button_changes (button_monitor.py lines 103-131) -/

/-- Body of the `for idx in self.target_buttons` loop of
`ButtonMonitor.check_button_changes`: skip an out-of-range index, skip an
index with no stored original text, and report `(idx, original, current)`
when the current text differs. -/
def checkOne (original_texts : List (Nat × String)) (buttons : List String)
    (idx : Nat) : Option (Nat × String × String) :=
  match buttons[idx]? with
  | none => none
  | some current_text =>
    match lookupText original_texts idx with
    | none => none
    | some original_text =>
      if current_text ≠ original_text then some (idx, original_text, current_text)
      else none

/-- `ButtonMonitor.check_button_changes`: returns the list of
`(button_index, old_text, new_text)` tuples for changed buttons, in
`target_buttons` iteration order. Mirrors the early return on empty
`target_buttons` or empty `original_texts`. -/
def check_button_changes (target_buttons : List Nat)
    (original_texts : List (Nat × String)) (buttons : List String) :
    List (Nat × String × String) :=
  if target_buttons.isEmpty || original_texts.isEmpty then []
  else target_buttons.filterMap (checkOne original_texts buttons)

/-! ### Notification messages and ButtonMonitor.notify_changes (lines 133-155) -/

/-- Console message printed by `ButtonMonitor.notify_changes`
(lines 145 and 155): the literal starts with a newline and the mis-encoded
bell, and shows both old and new text. -/
def consoleMsg (idx : Nat) (old_text new_text : String) : String :=
  "\n" ++ bellMojibake ++ " Button " ++ toString (idx + 1) ++ " changed: '"
    ++ old_text ++ "' -> '" ++ new_text ++ "'"

/-- Chat message built by `ButtonMonitor.notify_changes` (line 150) and passed
to `notifier.send_notification`. -/
def chatMsg (idx : Nat) (old_text new_text : String) : String :=
  bellMojibake ++ " Button " ++ toString (idx + 1) ++ " changed:\nFrom: '"
    ++ old_text ++ "'\nTo: '" ++ new_text ++ "'"

/-- Message built by `TelegramNotifier.notify_button_clicked`
(notifier.py line 70); here the source has the genuine bell emoji U+1F514,
and `button_number` is already 1-based at the call site. -/
def notify_button_clicked_message (button_number : Nat) (text : String) : String :=
  "🔔 Button " ++ toString button_number ++ " changed to: " ++ text

/-- Observable events of the monitoring loop: a successful page refresh, a
recovery navigation attempt, a chat send attempt (with its outcome), and a
console print. Send attempts and console prints are tagged with the 0-based
index of the change that produced them. -/
inductive NotifyEvent where
  | refresh
  | navAttempt (ok : Bool)
  | sendAttempt (idx : Nat) (message : String) (ok : Bool)
  | consolePrint (idx : Nat) (message : String)
deriving DecidableEq, Repr

/-- The 0-based button index an event is about, if any. -/
def eventIdx : NotifyEvent → Option Nat
  | .sendAttempt i _ _ => some i
  | .consolePrint i _ => some i
  | _ => none

/-- Boolean test: the event is about button index `i`. -/
def tagIs (i : Nat) (e : NotifyEvent) : Bool :=
  match eventIdx e with
  | some j => j == i
  | none => false

/-- The index tags of a list of events, in emission order. -/
def eventTags (evs : List NotifyEvent) : List Nat :=
  evs.filterMap eventIdx

/-- Events produced for one change in `ButtonMonitor.notify_changes`:
without a notifier, one console print; with a notifier, one send attempt,
followed by the console fallback only when the send raises (lines 142-155).
`sendFails idx` tells whether `send_notification` raises for that change. -/
def eventsForChange (hasNotifier : Bool) (sendFails : Nat → Bool)
    (c : Nat × String × String) : List NotifyEvent :=
  if hasNotifier then
    if sendFails c.1 then
      [.sendAttempt c.1 (chatMsg c.1 c.2.1 c.2.2) false,
       .consolePrint c.1 (consoleMsg c.1 c.2.1 c.2.2)]
    else [.sendAttempt c.1 (chatMsg c.1 c.2.1 c.2.2) true]
  else [.consolePrint c.1 (consoleMsg c.1 c.2.1 c.2.2)]

/-- `ButtonMonitor.notify_changes`: early return on no changes, otherwise one
block of events per change, in change order. -/
def notify_changes (hasNotifier : Bool) (sendFails : Nat → Bool)
    (changes : List (Nat × String × String)) : List NotifyEvent :=
  if changes.isEmpty then []
  else changes.flatMap (eventsForChange hasNotifier sendFails)

/-! ### ButtonMonitor.store_original_texts (lines 60-73) -/

/-- `ButtonMonitor.store_original_texts`: for each target index in range,
overwrite `original_texts[idx]` with the current page text; out-of-range
indices are only logged. -/
def store_original_texts (target_buttons : List Nat)
    (original_texts : List (Nat × String)) (buttons : List String) :
    List (Nat × String) :=
  target_buttons.foldl
    (fun m idx =>
      match buttons[idx]? with
      | some t => setText m idx t
      | none => m)
    original_texts

/-! ### One Running iteration and the monitoring loop (lines 178-223) -/

/-- The change-handling part of one successful loop iteration
(`start_monitoring` lines 188-196): check for changes, notify, and only then
update `original_texts` for every change, regardless of send failures. -/
def loop_body (target_buttons : List Nat) (original_texts : List (Nat × String))
    (buttons : List String) (hasNotifier : Bool) (sendFails : Nat → Bool) :
    List NotifyEvent × List (Nat × String) :=
  let changes := check_button_changes target_buttons original_texts buttons
  if changes.isEmpty then ([], original_texts)
  else (notify_changes hasNotifier sendFails changes,
        changes.foldl (fun m c => setText m c.1 c.2.2) original_texts)

/-- Monitor state during the loop: the baseline mapping and the
`is_running` flag. -/
structure MonState where
  original_texts : List (Nat × String)
  is_running : Bool
deriving DecidableEq, Repr

/-- Outcome of one loop iteration supplied by the environment:
`ok buttons` — refresh and element lookup succeed, the page shows `buttons`;
`wdErr rec` — a `WebDriverException` is raised; `rec` is `some bs` when the
recovery navigation succeeds and the page then shows `bs`, and `none` when
the recovery itself raises; `otherErr` — any other exception. -/
inductive IterOutcome where
  | ok (buttons : List String)
  | wdErr (recovered : Option (List String))
  | otherErr
deriving DecidableEq, Repr

/-- One iteration of the `while self.is_running` loop of
`ButtonMonitor.start_monitoring` (lines 179-232): on success, refresh then run
`loop_body`; on a `WebDriverException`, one recovery navigation to the stored
URL — on success `store_original_texts` is re-run on the fresh page, on
failure `is_running` is set to `False`; other exceptions only sleep. -/
def step (target_buttons : List Nat) (hasNotifier : Bool) (sendFails : Nat → Bool)
    (st : MonState) : IterOutcome → List NotifyEvent × MonState
  | .ok buttons =>
      let r := loop_body target_buttons st.original_texts buttons hasNotifier sendFails
      (.refresh :: r.1, ⟨r.2, st.is_running⟩)
  | .wdErr none => ([.navAttempt false], ⟨st.original_texts, false⟩)
  | .wdErr (some bs) =>
      ([.navAttempt true],
       ⟨store_original_texts target_buttons st.original_texts bs, st.is_running⟩)
  | .otherErr => ([], st)

/-- The monitoring loop: consume iteration outcomes while `is_running` holds,
collecting all emitted events. -/
def run_loop (target_buttons : List Nat) (hasNotifier : Bool)
    (sendFails : Nat → Bool) : MonState → List IterOutcome →
    List NotifyEvent × MonState
  | st, [] => ([], st)
  | st, o :: rest =>
      if st.is_running then
        let r := step target_buttons hasNotifier sendFails st o
        let r2 := run_loop target_buttons hasNotifier sendFails r.2 rest
        (r.1 ++ r2.1, r2.2)
      else ([], st)

/-- Result of `ButtonMonitor.start_monitoring`: the emitted events, the final
baseline mapping, and whether `is_running` was ever set. -/
structure StartResult where
  events : List NotifyEvent
  original_texts : List (Nat × String)
  ever_ran : Bool
deriving DecidableEq, Repr

/-- `ButtonMonitor.start_monitoring` (lines 157-241): with no target buttons it
reports and returns before setting `is_running`; otherwise it stores original
texts if none are stored yet (from `initialButtons`, the page at start) and
runs the loop. -/
def start_monitoring (target_buttons : List Nat)
    (original_texts : List (Nat × String)) (initialButtons : List String)
    (hasNotifier : Bool) (sendFails : Nat → Bool) (outs : List IterOutcome) :
    StartResult :=
  if target_buttons.isEmpty then ⟨[], original_texts, false⟩
  else
    let orig1 :=
      if original_texts.isEmpty then
        store_original_texts target_buttons original_texts initialButtons
      else original_texts
    let r := run_loop target_buttons hasNotifier sendFails ⟨orig1, true⟩ outs
    ⟨r.1, r.2.original_texts, true⟩

/-- `PageMonitor.start` (webbuttonwatcher/core/monitor.py lines 66-90): an
explicit `target_buttons` argument replaces the stored selection; an empty
selection reports an error (first component `true`) and returns before the
monitor is started. -/
def PageMonitor_start (stored_targets : List Nat)
    (arg_targets : Option (List Nat)) (original_texts : List (Nat × String))
    (initialButtons : List String) (hasNotifier : Bool) (sendFails : Nat → Bool)
    (outs : List IterOutcome) : Bool × StartResult :=
  let target_buttons :=
    match arg_targets with
    | some t => t
    | none => stored_targets
  if target_buttons.isEmpty then (true, ⟨[], original_texts, false⟩)
  else (false,
        start_monitoring target_buttons original_texts initialButtons
          hasNotifier sendFails outs)

/-! ### Interactive selection order (webbuttonwatcher/core/button_selector.py) -/

/-- Effect of one overlay click on `window.selectedButtons`
(button_selector.py lines 163-181): a click on an unselected button pushes its
index at the end; a click on a selected button splices it out. -/
def applyClick (selected : List Nat) (i : Nat) : List Nat :=
  if i ∈ selected then selected.erase i else selected ++ [i]

/-- The selection `ButtonSelector.select_buttons_interactive` returns after a
sequence of overlay clicks: click order is preserved, nothing is sorted
(lines 210-244 return `window.selectedButtons` as is). -/
def selection_after_clicks (clicks : List Nat) : List Nat :=
  clicks.foldl applyClick []

/-! ### DriverManager.navigate_to / refresh_page
(webbuttonwatcher/core/driver_manager.py lines 484-519 and 574-606) -/

/-- How a call into `DriverManager.navigate_to` or `refresh_page` ends:
either an exception escapes to the caller, or the method returns a boolean. -/
inductive NavResult where
  | raised
  | returned (success : Bool)
deriving DecidableEq, Repr

/-- `DriverManager.navigate_to` (lines 484-519). Inputs describe the
environment: `hasDriver` — `self.driver` is set on entry; `initOutcome` —
result of `initialize_driver()` when called (`none`: it raises, propagating
the exception, since the call at line 487 is outside the `try` block;
`some b`: it returns with `self.driver` present iff `b`); `getRaises` —
`self.driver.get(url)` raises. Page-load errors are caught by the
`try`/`except` of lines 494-519 and reported as `False`;
`wait_for_cloudflare` catches its own exceptions. -/
def navigate_to (hasDriver : Bool) (initOutcome : Option Bool)
    (getRaises : Bool) : NavResult :=
  if !hasDriver then
    match initOutcome with
    | none => .raised
    | some false => .returned false
    | some true => if getRaises then .returned false else .returned true
  else if getRaises then .returned false else .returned true

/-- `DriverManager.refresh_page` (lines 574-606): without a driver it returns
`False`; a raising `self.driver.refresh()` is caught and recovery falls back
to `navigate_to(self.last_url)` when a last URL is stored (with the driver
still present), else returns `False`. -/
def refresh_page (hasDriver : Bool) (refreshRaises : Bool) (hasLastUrl : Bool)
    (initOutcome : Option Bool) (getRaises : Bool) : NavResult :=
  if !hasDriver then .returned false
  else if !refreshRaises then .returned true
  else if hasLastUrl then navigate_to true initOutcome getRaises
  else .returned false

/-! ### SettingsManager (src/src/web_button_watcher/utils/settings.py) -/

/-- Values stored in the settings document; the nested `telegram` and
`window` objects of `settings.py` are dedicated constructors. -/
inductive SVal where
  | str (s : String)
  | num (n : Int)
  | natList (l : List Nat)
  | telegram (api_id api_hash bot_token chat_id : String)
  | window (position_x position_y width height : Option Int)
deriving DecidableEq, Repr

/-- Lookup in the settings mapping (Python `dict.get`). -/
def lookupKey : List (String × SVal) → String → Option SVal
  | [], _ => none
  | (k, v) :: rest, key => if k = key then some v else lookupKey rest key

/-- Overwrite in the settings mapping (Python `dict[key] = value`). -/
def setKey : List (String × SVal) → String → SVal → List (String × SVal)
  | [], key, v => [(key, v)]
  | (k, w) :: rest, key, v =>
      if k = key then (key, v) :: rest else (k, w) :: setKey rest key v

/-- In-memory state of `SettingsManager`: the `self.settings` dictionary. -/
structure SettingsManager where
  settings : List (String × SVal)
deriving DecidableEq, Repr

/-- `SettingsManager.get` (lines 101-111): the stored value, or the given
default when the key is absent. -/
def SettingsManager.get (m : SettingsManager) (key : String)
    (dflt : Option SVal) : Option SVal :=
  match lookupKey m.settings key with
  | some v => some v
  | none => dflt

/-- `SettingsManager.set` (lines 113-124): mutate `self.settings[key]`, then
attempt `_save_settings`; `diskOk` is the outcome of the disk write, which is
returned to the caller but never rolls back the in-memory mutation. -/
def SettingsManager.set (m : SettingsManager) (key : String) (value : SVal)
    (diskOk : Bool) : SettingsManager × Bool :=
  (⟨setKey m.settings key value⟩, diskOk)

/-- `SettingsManager.update` (lines 126-136): `self.settings.update(d)`,
then one disk write. -/
def SettingsManager.update (m : SettingsManager) (d : List (String × SVal))
    (diskOk : Bool) : SettingsManager × Bool :=
  (⟨d.foldl (fun s p => setKey s p.1 p.2) m.settings⟩, diskOk)

/-- `SettingsManager.get_telegram_settings` (lines 146-157). -/
def SettingsManager.get_telegram_settings (m : SettingsManager) : SVal :=
  match lookupKey m.settings "telegram" with
  | some v => v
  | none => .telegram "" "" "" ""

/-- `SettingsManager.update_telegram_settings` (lines 159-177): replace the
whole `telegram` object, then one disk write. -/
def SettingsManager.update_telegram_settings (m : SettingsManager)
    (api_id api_hash bot_token chat_id : String) (diskOk : Bool) :
    SettingsManager × Bool :=
  (⟨setKey m.settings "telegram" (.telegram api_id api_hash bot_token chat_id)⟩,
   diskOk)

/-- `SettingsManager.save_window_position` (lines 179-198): replace the whole
`window` object, then one disk write. -/
def SettingsManager.save_window_position (m : SettingsManager)
    (x y w h : Option Int) (diskOk : Bool) : SettingsManager × Bool :=
  (⟨setKey m.settings "window" (.window x y w h)⟩, diskOk)

/-- `SettingsManager.get_window_settings` (lines 200-212). -/
def SettingsManager.get_window_settings (m : SettingsManager) : SVal :=
  match lookupKey m.settings "window" with
  | some v => v
  | none => .window none none (some 600) (some 900)

/-! ### Lemmas about the baseline mapping -/

theorem lookupText_setText_self (m : List (Nat × String)) (i : Nat) (v : String) :
    lookupText (setText m i v) i = some v := by
  induction m with
  | nil => simp [setText, lookupText]
  | cons p rest ih =>
    by_cases h : p.1 = i
    · simp [setText, h, lookupText]
    · simp [setText, h, lookupText, ih]

theorem lookupText_setText_ne (m : List (Nat × String)) {k i : Nat} (h : k ≠ i)
    (v : String) : lookupText (setText m k v) i = lookupText m i := by
  induction m with
  | nil => simp [setText, lookupText, h]
  | cons p rest ih =>
    by_cases hp : p.1 = k
    · simp [setText, hp, lookupText, h]
    · simp only [setText, hp, if_false, lookupText]
      by_cases hi : p.1 = i <;> simp [hi, ih]

theorem isEmpty_false_of_lookupText {m : List (Nat × String)} {i : Nat}
    {v : String} (h : lookupText m i = some v) : m.isEmpty = false := by
  cases m with
  | nil => simp [lookupText] at h
  | cons p rest => rfl

/-! ### Lemmas about checkOne -/

theorem checkOne_fst {orig : List (Nat × String)} {buttons : List String}
    {j : Nat} {c : Nat × String × String}
    (h : checkOne orig buttons j = some c) : c.1 = j := by
  unfold checkOne at h
  split at h
  · exact absurd h (by simp)
  · split at h
    · exact absurd h (by simp)
    · split at h
      · cases h
        rfl
      · exact absurd h (by simp)

theorem checkOne_eq_some {orig : List (Nat × String)} {buttons : List String}
    {i : Nat} {old_text new_text : String}
    (hbtn : buttons[i]? = some new_text)
    (horig : lookupText orig i = some old_text) (hne : new_text ≠ old_text) :
    checkOne orig buttons i = some (i, old_text, new_text) := by
  unfold checkOne
  rw [hbtn, horig]
  simp [hne]

theorem checkOne_eq_none_unchanged {orig : List (Nat × String)}
    {buttons : List String} {i : Nat} {t : String}
    (hbtn : buttons[i]? = some t) (horig : lookupText orig i = some t) :
    checkOne orig buttons i = none := by
  unfold checkOne
  rw [hbtn, horig]
  simp

theorem checkOne_eq_none_oor {orig : List (Nat × String)} {buttons : List String}
    {i : Nat} (h : buttons.length ≤ i) : checkOne orig buttons i = none := by
  unfold checkOne
  rw [List.getElem?_eq_none h]

theorem checkOne_inv {orig : List (Nat × String)} {buttons : List String}
    {j : Nat} {c : Nat × String × String}
    (h : checkOne orig buttons j = some c) :
    buttons[j]? = some c.2.2 ∧ lookupText orig j = some c.2.1 ∧ c.2.2 ≠ c.2.1 := by
  unfold checkOne at h
  split at h
  · exact absurd h (by simp)
  next t hb =>
    split at h
    · exact absurd h (by simp)
    next o ho =>
      split at h
      next hne =>
        cases h
        exact ⟨hb, ho, hne⟩
      · exact absurd h (by simp)

/-! ### Lemmas about filtering the change list -/

theorem filter_filterMap_tag_nil {β : Type} (f : Nat → Option β) (key : β → Nat)
    (i : Nat) (l : List Nat)
    (h : ∀ j ∈ l, ∀ c, f j = some c → key c ≠ i) :
    (l.filterMap f).filter (fun c => key c == i) = [] := by
  induction l with
  | nil => rfl
  | cons a l ih =>
    rw [List.filterMap_cons]
    cases hf : f a with
    | none => exact ih fun j hj => h j (List.mem_cons_of_mem _ hj)
    | some c =>
      rw [List.filter_cons]
      have hne : (key c == i) = false := by
        simp [h a (List.mem_cons_self a l) c hf]
      rw [hne]
      simp only [Bool.false_eq_true, if_false]
      exact ih fun j hj => h j (List.mem_cons_of_mem _ hj)

theorem filter_filterMap_tag_single {β : Type} (f : Nat → Option β)
    (key : β → Nat) {i : Nat} {l : List Nat} {c₀ : β}
    (hkey : ∀ j c, f j = some c → key c = j)
    (hnd : l.Nodup) (hmem : i ∈ l) (hf : f i = some c₀) :
    (l.filterMap f).filter (fun c => key c == i) = [c₀] := by
  induction l with
  | nil => cases hmem
  | cons a l ih =>
    rw [List.filterMap_cons]
    by_cases ha : a = i
    · subst ha
      rw [hf, List.filter_cons]
      have : (key c₀ == a) = true := by simp [hkey a c₀ hf]
      rw [this]
      simp only [if_true]
      have hnotmem : a ∉ l := (List.nodup_cons.mp hnd).1
      have : (l.filterMap f).filter (fun c => key c == a) = [] := by
        apply filter_filterMap_tag_nil
        intro j hj c hc
        rw [hkey j c hc]
        intro hji
        exact hnotmem (hji ▸ hj)
      rw [this]
    · have hmem' : i ∈ l := by
        cases List.mem_cons.mp hmem with
        | inl h => exact absurd h.symm ha
        | inr h => exact h
      have hrest := ih (List.nodup_cons.mp hnd).2 hmem'
      cases hf2 : f a with
      | none => exact hrest
      | some c =>
        rw [List.filter_cons]
        have : (key c == i) = false := by
          simp [hkey a c hf2, ha]
        rw [this]
        simp only [Bool.false_eq_true, if_false]
        exact hrest

theorem filter_flatMap {α β : Type} (l : List α) (g : α → List β) (p : β → Bool) :
    (l.flatMap g).filter p = l.flatMap fun a => (g a).filter p := by
  induction l with
  | nil => rfl
  | cons a l ih => rw [List.flatMap_cons, List.flatMap_cons, List.filter_append, ih]

theorem flatMap_of_filter_nil {α β : Type} (l : List α) (g : α → List β)
    (q : α → Bool) (p : β → Bool)
    (hl : l.filter q = [])
    (hg : ∀ a, q a = false → (g a).filter p = []) :
    (l.flatMap g).filter p = [] := by
  induction l with
  | nil => rfl
  | cons a l ih =>
    rw [List.filter_cons] at hl
    by_cases hqa : q a = true
    · rw [hqa] at hl
      simp at hl
    · have hqa' : q a = false := by
        cases hq : q a with
        | false => rfl
        | true => exact absurd hq hqa
      rw [hqa'] at hl
      simp only [Bool.false_eq_true, if_false] at hl
      rw [List.flatMap_cons, List.filter_append, hg a hqa', List.nil_append]
      exact ih hl

theorem flatMap_of_filter_single {α β : Type} [DecidableEq α] (l : List α)
    (g : α → List β) (q : α → Bool) (p : β → Bool) {a₀ : α}
    (hl : l.filter q = [a₀])
    (hgt : ∀ a, q a = true → (g a).filter p = g a)
    (hgf : ∀ a, q a = false → (g a).filter p = []) :
    (l.flatMap g).filter p = g a₀ := by
  induction l with
  | nil => cases hl
  | cons a l ih =>
    rw [List.filter_cons] at hl
    rw [List.flatMap_cons, List.filter_append]
    cases hq : q a with
    | true =>
      rw [hq] at hl
      simp only [if_true] at hl
      have ha : a = a₀ := (List.cons_eq_cons.mp hl).1
      have hrest : l.filter q = [] := (List.cons_eq_cons.mp hl).2
      subst ha
      rw [hgt a hq, flatMap_of_filter_nil l g q p hrest hgf, List.append_nil]
    | false =>
      rw [hq] at hl
      simp only [Bool.false_eq_true, if_false] at hl
      rw [hgf a hq, List.nil_append]
      exact ih hl

theorem filterMap_eq_nil_of_none {α β : Type} (f : α → Option β) (l : List α)
    (h : ∀ a ∈ l, f a = none) : l.filterMap f = [] := by
  induction l with
  | nil => rfl
  | cons a l ih =>
    rw [List.filterMap_cons, h a (List.mem_cons_self a l)]
    exact ih fun a ha => h a (List.mem_cons_of_mem _ ha)

/-! ### Lemmas about the baseline update fold -/

theorem foldl_setText_of_no_tag {i : Nat} (cs : List (Nat × String × String))
    (m : List (Nat × String)) (h : ∀ c ∈ cs, c.1 ≠ i) :
    lookupText (cs.foldl (fun m c => setText m c.1 c.2.2) m) i = lookupText m i := by
  induction cs generalizing m with
  | nil => rfl
  | cons c cs ih =>
    rw [List.foldl_cons]
    rw [ih _ fun c' hc' => h c' (List.mem_cons_of_mem _ hc')]
    exact lookupText_setText_ne m (h c (List.mem_cons_self c cs)) c.2.2

theorem foldl_setText_of_filter_single {i : Nat} {o n : String}
    (cs : List (Nat × String × String)) (m : List (Nat × String))
    (h : cs.filter (fun c => c.1 == i) = [(i, o, n)]) :
    lookupText (cs.foldl (fun m c => setText m c.1 c.2.2) m) i = some n := by
  induction cs generalizing m with
  | nil => cases h
  | cons c cs ih =>
    rw [List.filter_cons] at h
    rw [List.foldl_cons]
    cases hq : (c.1 == i) with
    | true =>
      rw [hq] at h
      simp only [if_true] at h
      have hc : c = (i, o, n) := (List.cons_eq_cons.mp h).1
      have hrest : cs.filter (fun c => c.1 == i) = [] := (List.cons_eq_cons.mp h).2
      subst hc
      have hno : ∀ c' ∈ cs, c'.1 ≠ i := by
        intro c' hc' hic
        have := List.filter_eq_nil_iff.mp hrest c' hc'
        simp [hic] at this
      rw [foldl_setText_of_no_tag cs _ hno]
      exact lookupText_setText_self m i n
    | false =>
      rw [hq] at h
      simp only [Bool.false_eq_true, if_false] at h
      exact ih _ h

/-! ### Lemmas about store_original_texts -/

theorem store_original_texts_cons_some {buttons : List String} {j : Nat}
    {t : String} (l : List Nat) (m : List (Nat × String))
    (hb : buttons[j]? = some t) :
    store_original_texts (j :: l) m buttons =
      store_original_texts l (setText m j t) buttons := by
  unfold store_original_texts
  rw [List.foldl_cons, hb]

theorem store_original_texts_cons_none {buttons : List String} {j : Nat}
    (l : List Nat) (m : List (Nat × String)) (hb : buttons[j]? = none) :
    store_original_texts (j :: l) m buttons =
      store_original_texts l m buttons := by
  unfold store_original_texts
  rw [List.foldl_cons, hb]

theorem store_original_texts_not_mem {i : Nat} (l : List Nat)
    (m : List (Nat × String)) (buttons : List String) (h : i ∉ l) :
    lookupText (store_original_texts l m buttons) i = lookupText m i := by
  induction l generalizing m with
  | nil => rfl
  | cons j l ih =>
    have hji : j ≠ i := fun hj => h (hj ▸ List.mem_cons_self j l)
    have hrest : i ∉ l := fun hl => h (List.mem_cons_of_mem _ hl)
    cases hb : buttons[j]? with
    | none =>
      rw [store_original_texts_cons_none l m hb]
      exact ih m hrest
    | some t =>
      rw [store_original_texts_cons_some l m hb, ih _ hrest]
      exact lookupText_setText_ne m hji t

theorem store_original_texts_mem {i : Nat} {t : String} (l : List Nat)
    (m : List (Nat × String)) (buttons : List String)
    (hmem : i ∈ l) (hbtn : buttons[i]? = some t) :
    lookupText (store_original_texts l m buttons) i = some t := by
  induction l generalizing m with
  | nil => cases hmem
  | cons j l ih =>
    by_cases hrest : i ∈ l
    · cases hb : buttons[j]? with
      | none =>
        rw [store_original_texts_cons_none l m hb]
        exact ih m hrest
      | some u =>
        rw [store_original_texts_cons_some l m hb]
        exact ih _ hrest
    · have hji : j = i := by
        cases List.mem_cons.mp hmem with
        | inl h => exact h.symm
        | inr h => exact absurd h hrest
      subst hji
      rw [store_original_texts_cons_some l m hbtn,
        store_original_texts_not_mem l _ buttons hrest]
      exact lookupText_setText_self m j t

/-! ### Lemmas about event blocks and the composed iteration -/

theorem eventsForChange_filter_self (hasNotifier : Bool) (sendFails : Nat → Bool)
    (c : Nat × String × String) (i : Nat) (h : (c.1 == i) = true) :
    (eventsForChange hasNotifier sendFails c).filter (tagIs i) =
      eventsForChange hasNotifier sendFails c := by
  cases hasNotifier <;> cases hsf : sendFails c.1 <;>
    simp [eventsForChange, tagIs, eventIdx, hsf, h]

theorem eventsForChange_filter_ne (hasNotifier : Bool) (sendFails : Nat → Bool)
    (c : Nat × String × String) (i : Nat) (h : (c.1 == i) = false) :
    (eventsForChange hasNotifier sendFails c).filter (tagIs i) = [] := by
  cases hasNotifier <;> cases hsf : sendFails c.1 <;>
    simp [eventsForChange, tagIs, eventIdx, hsf, h]

theorem changes_filter_single {targets : List Nat} {orig : List (Nat × String)}
    {buttons : List String} {i : Nat} {old_text new_text : String}
    (hnd : targets.Nodup) (hmem : i ∈ targets)
    (hbtn : buttons[i]? = some new_text)
    (horig : lookupText orig i = some old_text) (hne : new_text ≠ old_text) :
    (check_button_changes targets orig buttons).filter (fun c => c.1 == i)
      = [(i, old_text, new_text)] := by
  unfold check_button_changes
  have h1 : targets.isEmpty = false := by
    cases targets
    · cases hmem
    · rfl
  rw [h1, isEmpty_false_of_lookupText horig]
  simp only [Bool.or_self, Bool.false_eq_true, if_false]
  exact filter_filterMap_tag_single (checkOne orig buttons) (fun c => c.1)
    (fun j c hc => checkOne_fst hc) hnd hmem (checkOne_eq_some hbtn horig hne)

theorem changes_filter_nil {targets : List Nat} {orig : List (Nat × String)}
    {buttons : List String} {i : Nat}
    (hnone : checkOne orig buttons i = none) :
    (check_button_changes targets orig buttons).filter (fun c => c.1 == i)
      = [] := by
  unfold check_button_changes
  cases hg : (targets.isEmpty || orig.isEmpty) with
  | true => simp
  | false =>
    simp only [Bool.false_eq_true, if_false]
    apply filter_filterMap_tag_nil
    intro j hj c hc hci
    have hji : c.1 = j := checkOne_fst hc
    rw [hci] at hji
    rw [← hji] at hc
    rw [hnone] at hc
    cases hc

theorem events_filter_single {targets : List Nat} {orig : List (Nat × String)}
    {buttons : List String} {i : Nat} {old_text new_text : String}
    (hasNotifier : Bool) (sendFails : Nat → Bool)
    (hnd : targets.Nodup) (hmem : i ∈ targets)
    (hbtn : buttons[i]? = some new_text)
    (horig : lookupText orig i = some old_text) (hne : new_text ≠ old_text) :
    (notify_changes hasNotifier sendFails
        (check_button_changes targets orig buttons)).filter (tagIs i)
      = eventsForChange hasNotifier sendFails (i, old_text, new_text) := by
  have hfil := changes_filter_single hnd hmem hbtn horig hne
  have hnonnil : (check_button_changes targets orig buttons).isEmpty = false := by
    cases hcc : check_button_changes targets orig buttons
    · rw [hcc] at hfil
      cases hfil
    · rfl
  unfold notify_changes
  rw [hnonnil]
  simp only [Bool.false_eq_true, if_false]
  exact flatMap_of_filter_single _ _ (fun c => c.1 == i) (tagIs i) hfil
    (fun c hc => eventsForChange_filter_self hasNotifier sendFails c i hc)
    (fun c hc => eventsForChange_filter_ne hasNotifier sendFails c i hc)

theorem events_filter_nil {targets : List Nat} {orig : List (Nat × String)}
    {buttons : List String} {i : Nat}
    (hasNotifier : Bool) (sendFails : Nat → Bool)
    (hnone : checkOne orig buttons i = none) :
    (notify_changes hasNotifier sendFails
        (check_button_changes targets orig buttons)).filter (tagIs i) = [] := by
  have hfil : (check_button_changes targets orig buttons).filter
      (fun c => c.1 == i) = [] := changes_filter_nil hnone
  unfold notify_changes
  cases hcc : (check_button_changes targets orig buttons).isEmpty with
  | true => simp
  | false =>
    simp only [Bool.false_eq_true, if_false]
    exact flatMap_of_filter_nil _ _ (fun c => c.1 == i) (tagIs i) hfil
      (fun c hc => eventsForChange_filter_ne hasNotifier sendFails c i hc)

theorem loop_body_of_nonempty (targets : List Nat) (orig : List (Nat × String))
    (buttons : List String) (hasNotifier : Bool) (sendFails : Nat → Bool)
    (h : (check_button_changes targets orig buttons).isEmpty = false) :
    loop_body targets orig buttons hasNotifier sendFails =
      (notify_changes hasNotifier sendFails
        (check_button_changes targets orig buttons),
       (check_button_changes targets orig buttons).foldl
         (fun m c => setText m c.1 c.2.2) orig) := by
  unfold loop_body
  simp only []
  rw [h]
  simp

theorem loop_body_of_empty (targets : List Nat) (orig : List (Nat × String))
    (buttons : List String) (hasNotifier : Bool) (sendFails : Nat → Bool)
    (h : (check_button_changes targets orig buttons).isEmpty = true) :
    loop_body targets orig buttons hasNotifier sendFails = ([], orig) := by
  unfold loop_body
  simp only []
  rw [h]
  simp

/-! ### Claim theorems -/

/-- C1: for every target index `i` in the TargetSet, after one monitoring
iteration in which the found button at position `i` has text different from
`BaselineText[i]`, exactly one notification is emitted that references the
1-based number `i+1` and the new text (the single event tagged `i` carries the
message built from `i+1`, the old and the new text), and `BaselineText[i]` is
updated to the new text. Stated for a send that does not fail; C2 covers the
failing send. -/
theorem c1_change_notified_once (targets : List Nat) (orig : List (Nat × String))
    (buttons : List String) (hasNotifier : Bool) (sendFails : Nat → Bool)
    (i : Nat) (old_text new_text : String)
    (hnd : targets.Nodup) (hmem : i ∈ targets)
    (hbtn : buttons[i]? = some new_text)
    (horig : lookupText orig i = some old_text)
    (hne : new_text ≠ old_text) (hok : sendFails i = false) :
    ((step targets hasNotifier sendFails ⟨orig, true⟩ (.ok buttons)).1.filter
        (tagIs i) =
      (if hasNotifier then [.sendAttempt i (chatMsg i old_text new_text) true]
       else [.consolePrint i (consoleMsg i old_text new_text)]))
    ∧ lookupText (step targets hasNotifier sendFails ⟨orig, true⟩
        (.ok buttons)).2.original_texts i = some new_text := by
  have hfil := changes_filter_single hnd hmem hbtn horig hne
  have hnn : (check_button_changes targets orig buttons).isEmpty = false := by
    cases hcc : check_button_changes targets orig buttons
    · rw [hcc] at hfil
      cases hfil
    · rfl
  have hlb := loop_body_of_nonempty targets orig buttons hasNotifier sendFails hnn
  constructor
  · show ((NotifyEvent.refresh ::
        (loop_body targets orig buttons hasNotifier sendFails).1).filter
        (tagIs i)) = _
    rw [hlb]
    rw [List.filter_cons]
    have hrf : tagIs i NotifyEvent.refresh = false := rfl
    rw [hrf]
    simp only [Bool.false_eq_true, if_false]
    rw [events_filter_single hasNotifier sendFails hnd hmem hbtn horig hne]
    cases hasNotifier <;> simp [eventsForChange, hok]
  · show lookupText (loop_body targets orig buttons hasNotifier sendFails).2 i
      = some new_text
    rw [hlb]
    exact foldl_setText_of_filter_single _ orig hfil

/-- Witness for C1 at the spec scenario: target `[0]`, baseline
`GET NOTIFIED`, page now shows `BOOK NOW`, console path. -/
theorem c1_change_notified_once_witness :
    ((step [0] false (fun _ => false) ⟨[(0, "GET NOTIFIED")], true⟩
        (.ok ["BOOK NOW"])).1.filter (tagIs 0) =
      [.consolePrint 0 (consoleMsg 0 "GET NOTIFIED" "BOOK NOW")])
    ∧ lookupText (step [0] false (fun _ => false) ⟨[(0, "GET NOTIFIED")], true⟩
        (.ok ["BOOK NOW"])).2.original_texts 0 = some "BOOK NOW" := by
  have h := c1_change_notified_once [0] [(0, "GET NOTIFIED")] ["BOOK NOW"]
    false (fun _ => false) 0 "GET NOTIFIED" "BOOK NOW" (by decide) (by decide)
    rfl (by decide) (by decide) rfl
  simpa using h

theorem loop_body_filter_nil (targets : List Nat) (orig : List (Nat × String))
    (buttons : List String) (hasNotifier : Bool) (sendFails : Nat → Bool)
    (i : Nat) (hnone : checkOne orig buttons i = none) :
    (loop_body targets orig buttons hasNotifier sendFails).1.filter (tagIs i)
      = [] := by
  cases hcc : (check_button_changes targets orig buttons).isEmpty with
  | false =>
    rw [loop_body_of_nonempty targets orig buttons hasNotifier sendFails hcc]
    exact events_filter_nil hasNotifier sendFails hnone
  | true =>
    rw [loop_body_of_empty targets orig buttons hasNotifier sendFails hcc]
    rfl

theorem step_ok_filter_nil (targets : List Nat) (hasNotifier : Bool)
    (sendFails : Nat → Bool) (st : MonState) (buttons : List String) (i : Nat)
    (hnone : checkOne st.original_texts buttons i = none) :
    (step targets hasNotifier sendFails st (.ok buttons)).1.filter (tagIs i)
      = [] := by
  show ((NotifyEvent.refresh ::
      (loop_body targets st.original_texts buttons hasNotifier sendFails).1).filter
      (tagIs i)) = []
  rw [List.filter_cons]
  have hrf : tagIs i NotifyEvent.refresh = false := rfl
  rw [hrf]
  simp only [Bool.false_eq_true, if_false]
  exact loop_body_filter_nil targets st.original_texts buttons hasNotifier
    sendFails i hnone

/-- C2: when the Notifier reports failure for a detected change, the monitor
makes exactly one send attempt (no retry within the iteration, the only
further event for that change is the console fallback), the loop is not
halted (`is_running` stays `true`), and `BaselineText[i]` is still updated to
the new text, so the next iteration over the same page emits nothing for
that index. -/
theorem c2_notify_failure_policy (targets : List Nat)
    (orig : List (Nat × String)) (buttons : List String) (sendFails : Nat → Bool)
    (i : Nat) (old_text new_text : String)
    (hnd : targets.Nodup) (hmem : i ∈ targets)
    (hbtn : buttons[i]? = some new_text)
    (horig : lookupText orig i = some old_text)
    (hne : new_text ≠ old_text) (hfail : sendFails i = true) :
    ((step targets true sendFails ⟨orig, true⟩ (.ok buttons)).1.filter
        (tagIs i) =
      [.sendAttempt i (chatMsg i old_text new_text) false,
       .consolePrint i (consoleMsg i old_text new_text)])
    ∧ (step targets true sendFails ⟨orig, true⟩ (.ok buttons)).2.is_running
        = true
    ∧ lookupText (step targets true sendFails ⟨orig, true⟩
        (.ok buttons)).2.original_texts i = some new_text
    ∧ (step targets true sendFails
        (step targets true sendFails ⟨orig, true⟩ (.ok buttons)).2
        (.ok buttons)).1.filter (tagIs i) = [] := by
  have hfil := changes_filter_single hnd hmem hbtn horig hne
  have hnn : (check_button_changes targets orig buttons).isEmpty = false := by
    cases hcc : check_button_changes targets orig buttons
    · rw [hcc] at hfil
      cases hfil
    · rfl
  have hlb := loop_body_of_nonempty targets orig buttons true sendFails hnn
  have hbase : lookupText (step targets true sendFails ⟨orig, true⟩
      (.ok buttons)).2.original_texts i = some new_text := by
    show lookupText (loop_body targets orig buttons true sendFails).2 i
      = some new_text
    rw [hlb]
    exact foldl_setText_of_filter_single _ orig hfil
  refine ⟨?_, rfl, hbase, ?_⟩
  · show ((NotifyEvent.refresh ::
        (loop_body targets orig buttons true sendFails).1).filter
        (tagIs i)) = _
    rw [hlb]
    rw [List.filter_cons]
    have hrf : tagIs i NotifyEvent.refresh = false := rfl
    rw [hrf]
    simp only [Bool.false_eq_true, if_false]
    rw [events_filter_single true sendFails hnd hmem hbtn horig hne]
    simp [eventsForChange, hfail]
  · exact step_ok_filter_nil targets true sendFails _ buttons i
      (checkOne_eq_none_unchanged hbtn hbase)

/-- Witness for C2: one target, a failing send, one changed button. -/
theorem c2_notify_failure_policy_witness :
    ((step [0] true (fun _ => true) ⟨[(0, "a")], true⟩ (.ok ["b"])).1.filter
        (tagIs 0) =
      [.sendAttempt 0 (chatMsg 0 "a" "b") false,
       .consolePrint 0 (consoleMsg 0 "a" "b")])
    ∧ (step [0] true (fun _ => true) ⟨[(0, "a")], true⟩
        (.ok ["b"])).2.is_running = true
    ∧ lookupText (step [0] true (fun _ => true) ⟨[(0, "a")], true⟩
        (.ok ["b"])).2.original_texts 0 = some "b"
    ∧ (step [0] true (fun _ => true)
        (step [0] true (fun _ => true) ⟨[(0, "a")], true⟩ (.ok ["b"])).2
        (.ok ["b"])).1.filter (tagIs 0) = [] := by
  exact c2_notify_failure_policy [0] [(0, "a")] ["b"] (fun _ => true) 0 "a" "b"
    (by decide) (by decide) rfl (by decide) (by decide) rfl

theorem mem_check_button_changes {targets : List Nat}
    {orig : List (Nat × String)} {buttons : List String}
    {c : Nat × String × String}
    (h : c ∈ check_button_changes targets orig buttons) :
    ∃ j, j ∈ targets ∧ checkOne orig buttons j = some c := by
  unfold check_button_changes at h
  cases hg : (targets.isEmpty || orig.isEmpty) with
  | true =>
    rw [hg] at h
    simp at h
  | false =>
    rw [hg] at h
    simp only [Bool.false_eq_true, if_false] at h
    exact List.mem_filterMap.mp h

theorem loop_body_lookup_unchanged (targets : List Nat)
    (orig : List (Nat × String)) (buttons : List String) (hasNotifier : Bool)
    (sendFails : Nat → Bool) (i : Nat)
    (hnone : checkOne orig buttons i = none) :
    lookupText (loop_body targets orig buttons hasNotifier sendFails).2 i
      = lookupText orig i := by
  cases hcc : (check_button_changes targets orig buttons).isEmpty with
  | true => rw [loop_body_of_empty targets orig buttons hasNotifier sendFails hcc]
  | false =>
    rw [loop_body_of_nonempty targets orig buttons hasNotifier sendFails hcc]
    apply foldl_setText_of_no_tag
    intro c hc hci
    obtain ⟨j, hj, hcj⟩ := mem_check_button_changes hc
    have hji : j = i := by rw [← checkOne_fst hcj, hci]
    rw [hji, hnone] at hcj
    cases hcj

/-- C6: if the found button at a position shows exactly its baseline text in
an iteration, that iteration emits no notification for that index and leaves
`BaselineText` at that index unchanged; and when every target is unchanged,
the iteration emits nothing and leaves the whole baseline mapping unchanged. -/
theorem c6_idempotent (targets : List Nat) (orig : List (Nat × String))
    (buttons : List String) (hasNotifier : Bool) (sendFails : Nat → Bool) :
    (∀ i t, buttons[i]? = some t → lookupText orig i = some t →
      (loop_body targets orig buttons hasNotifier sendFails).1.filter (tagIs i)
          = []
      ∧ lookupText (loop_body targets orig buttons hasNotifier sendFails).2 i
          = some t)
    ∧ ((∀ i ∈ targets, ∀ t, buttons[i]? = some t → lookupText orig i = some t) →
      loop_body targets orig buttons hasNotifier sendFails = ([], orig)) := by
  constructor
  · intro i t hbtn horig
    have hnone := checkOne_eq_none_unchanged hbtn horig
    refine ⟨loop_body_filter_nil targets orig buttons hasNotifier sendFails i
      hnone, ?_⟩
    rw [loop_body_lookup_unchanged targets orig buttons hasNotifier sendFails i
      hnone]
    exact horig
  · intro hall
    have hcc : check_button_changes targets orig buttons = [] := by
      unfold check_button_changes
      cases hg : (targets.isEmpty || orig.isEmpty) with
      | true => simp
      | false =>
        simp only [Bool.false_eq_true, if_false]
        apply filterMap_eq_nil_of_none
        intro j hj
        cases hb : buttons[j]? with
        | none =>
          unfold checkOne
          rw [hb]
        | some t => exact checkOne_eq_none_unchanged hb (hall j hj t hb)
    have hcc2 : (check_button_changes targets orig buttons).isEmpty = true := by
      rw [hcc]
      rfl
    exact loop_body_of_empty targets orig buttons hasNotifier sendFails hcc2

/-- Witness for C6 at a concrete unchanged page. -/
theorem c6_idempotent_witness :
    ((loop_body [0] [(0, "x")] ["x"] false (fun _ => false)).1.filter (tagIs 0)
        = []
      ∧ lookupText (loop_body [0] [(0, "x")] ["x"] false (fun _ => false)).2 0
        = some "x")
    ∧ loop_body [0] [(0, "x")] ["x"] false (fun _ => false) = ([], [(0, "x")]) := by
  constructor
  · exact (c6_idempotent [0] [(0, "x")] ["x"] false (fun _ => false)).1 0 "x"
      rfl (by decide)
  · apply (c6_idempotent [0] [(0, "x")] ["x"] false (fun _ => false)).2
    intro i hi t hb
    have hi0 : i = 0 := by simpa using hi
    subst hi0
    simp only [List.getElem?_cons_zero, Option.some.injEq] at hb
    subst hb
    rfl

theorem filterMap_filter_of_none {β : Type} (f : Nat → Option β) (l : List Nat)
    (i : Nat) (h : f i = none) :
    (l.filter (fun j => j != i)).filterMap f = l.filterMap f := by
  induction l with
  | nil => rfl
  | cons a l ih =>
    rw [List.filter_cons]
    by_cases ha : a = i
    · subst ha
      simp only [bne_self_eq_false, Bool.false_eq_true, if_false]
      rw [List.filterMap_cons, h]
      exact ih
    · have hne : (a != i) = true := by simp [ha]
      rw [hne]
      simp only [if_true]
      rw [List.filterMap_cons, List.filterMap_cons]
      cases f a with
      | none => exact ih
      | some b => rw [ih]

theorem check_changes_filter_ne (targets : List Nat)
    (orig : List (Nat × String)) (buttons : List String) (i : Nat)
    (hnone : checkOne orig buttons i = none) :
    check_button_changes (targets.filter (fun j => j != i)) orig buttons
      = check_button_changes targets orig buttons := by
  unfold check_button_changes
  cases ho : orig.isEmpty with
  | true => simp [ho]
  | false =>
    cases ht : targets.isEmpty with
    | true =>
      have hte : targets = [] := by
        cases targets
        · rfl
        · cases ht
      subst hte
      simp
    | false =>
      cases htf : ((targets.filter (fun j => j != i)).isEmpty) with
      | true =>
        have hfe : targets.filter (fun j => j != i) = [] := by
          cases hx : targets.filter (fun j => j != i)
          · rfl
          · rw [hx] at htf
            cases htf
        have halli : ∀ j ∈ targets, j = i := by
          intro j hj
          have := List.filter_eq_nil_iff.mp hfe j hj
          simpa using this
        have hrhs : targets.filterMap (checkOne orig buttons) = [] := by
          apply filterMap_eq_nil_of_none
          intro j hj
          rw [halli j hj]
          exact hnone
        simp [ho, ht, htf, hrhs]
      | false =>
        simp only [ho, ht, htf, Bool.or_false, Bool.false_eq_true, if_false]
        exact filterMap_filter_of_none (checkOne orig buttons) targets i hnone

/-- C7: a target index that is out of range of the currently found button list
is skipped: the iteration emits no notification for it, leaves its baseline
entry unchanged, behaves exactly as if the index were absent from the
TargetSet (the remaining targets are still processed), and the loop keeps
running afterwards. The model is total, so no exception is raised. -/
theorem c7_out_of_range_skipped (targets : List Nat)
    (orig : List (Nat × String)) (buttons : List String) (hasNotifier : Bool)
    (sendFails : Nat → Bool) (i : Nat) (h : buttons.length ≤ i) :
    (loop_body targets orig buttons hasNotifier sendFails).1.filter (tagIs i)
        = []
    ∧ lookupText (loop_body targets orig buttons hasNotifier sendFails).2 i
        = lookupText orig i
    ∧ loop_body targets orig buttons hasNotifier sendFails
        = loop_body (targets.filter (fun j => j != i)) orig buttons hasNotifier
            sendFails
    ∧ (step targets hasNotifier sendFails ⟨orig, true⟩
        (.ok buttons)).2.is_running = true := by
  have hnone : checkOne orig buttons i = none := checkOne_eq_none_oor h
  refine ⟨loop_body_filter_nil targets orig buttons hasNotifier sendFails i
      hnone,
    loop_body_lookup_unchanged targets orig buttons hasNotifier sendFails i
      hnone, ?_, rfl⟩
  have hch := check_changes_filter_ne targets orig buttons i hnone
  unfold loop_body
  simp only []
  rw [hch]

/-- Witness for C7: two targets, a one-button page, target 1 out of range
while target 0 changed. -/
theorem c7_out_of_range_skipped_witness :
    (loop_body [0, 1] [(0, "a"), (1, "b")] ["a2"] false
        (fun _ => false)).1.filter (tagIs 1) = []
    ∧ lookupText (loop_body [0, 1] [(0, "a"), (1, "b")] ["a2"] false
        (fun _ => false)).2 1 = lookupText [(0, "a"), (1, "b")] 1
    ∧ loop_body [0, 1] [(0, "a"), (1, "b")] ["a2"] false (fun _ => false)
        = loop_body ([0, 1].filter (fun j => j != 1)) [(0, "a"), (1, "b")]
            ["a2"] false (fun _ => false)
    ∧ (step [0, 1] false (fun _ => false) ⟨[(0, "a"), (1, "b")], true⟩
        (.ok ["a2"])).2.is_running = true :=
  c7_out_of_range_skipped [0, 1] [(0, "a"), (1, "b")] ["a2"] false
    (fun _ => false) 1 (by decide)

/-- C5: a `WebDriverException` during an iteration triggers exactly one
re-navigation attempt (the fixed bound is N = 1); when the attempt fails the
running flag becomes false and the loop exits (no further outcome is
consumed); when it succeeds the loop stays running and the baseline has been
re-read fresh from the page for every in-range target. -/
theorem c5_recovery_bound (targets : List Nat) (hasNotifier : Bool)
    (sendFails : Nat → Bool) (orig : List (Nat × String))
    (rec : Option (List String)) :
    ((step targets hasNotifier sendFails ⟨orig, true⟩ (.wdErr rec)).1
        = [.navAttempt rec.isSome])
    ∧ (rec = none →
        (step targets hasNotifier sendFails ⟨orig, true⟩
            (.wdErr rec)).2.is_running = false
        ∧ ∀ rest, run_loop targets hasNotifier sendFails
            (step targets hasNotifier sendFails ⟨orig, true⟩ (.wdErr rec)).2
            rest
          = ([], (step targets hasNotifier sendFails ⟨orig, true⟩
              (.wdErr rec)).2))
    ∧ (∀ bs, rec = some bs →
        (step targets hasNotifier sendFails ⟨orig, true⟩
            (.wdErr rec)).2.is_running = true
        ∧ ∀ i ∈ targets, ∀ t, bs[i]? = some t →
            lookupText (step targets hasNotifier sendFails ⟨orig, true⟩
              (.wdErr rec)).2.original_texts i = some t) := by
  refine ⟨?_, ?_, ?_⟩
  · cases rec <;> rfl
  · intro hrec
    subst hrec
    refine ⟨rfl, ?_⟩
    intro rest
    cases rest <;> rfl
  · intro bs hrec
    subst hrec
    refine ⟨rfl, ?_⟩
    intro i hi t hb
    exact store_original_texts_mem targets orig bs hi hb

/-- Witness for C5: recovery failure stops the loop and no further iteration
happens; recovery success keeps it running with a freshly stored baseline. -/
theorem c5_recovery_bound_witness :
    ((step [0] false (fun _ => false) ⟨[(0, "a")], true⟩ (.wdErr none)).1
        = [.navAttempt false])
    ∧ (step [0] false (fun _ => false) ⟨[(0, "a")], true⟩
        (.wdErr none)).2.is_running = false
    ∧ run_loop [0] false (fun _ => false)
        (step [0] false (fun _ => false) ⟨[(0, "a")], true⟩ (.wdErr none)).2
        [.ok ["z"]]
      = ([], (step [0] false (fun _ => false) ⟨[(0, "a")], true⟩
          (.wdErr none)).2)
    ∧ lookupText (step [0] false (fun _ => false) ⟨[(0, "a")], true⟩
        (.wdErr (some ["fresh"]))).2.original_texts 0 = some "fresh" := by
  have h1 := c5_recovery_bound [0] false (fun _ => false) [(0, "a")] none
  have h2 := c5_recovery_bound [0] false (fun _ => false) [(0, "a")]
    (some ["fresh"])
  exact ⟨h1.1, (h1.2.1 rfl).1, (h1.2.1 rfl).2 [.ok ["z"]],
    ((h2.2.2 ["fresh"] rfl).2 0 (by decide) "fresh" rfl)⟩

/-- C8: `start` with an empty TargetSet reports an error and returns
immediately: `PageMonitor.start` reports it (first component `true`) without
constructing a run, and `start_monitoring` emits no event (so no page refresh
and no notification), leaves the baseline untouched, and never sets the
running flag (`ever_ran = false`). -/
theorem c8_empty_targets (stored : List Nat) (orig : List (Nat × String))
    (initialButtons : List String) (hasNotifier : Bool)
    (sendFails : Nat → Bool) (outs : List IterOutcome) :
    PageMonitor_start stored (some []) orig initialButtons hasNotifier
        sendFails outs = (true, ⟨[], orig, false⟩)
    ∧ PageMonitor_start [] none orig initialButtons hasNotifier sendFails outs
        = (true, ⟨[], orig, false⟩)
    ∧ start_monitoring [] orig initialButtons hasNotifier sendFails outs
        = ⟨[], orig, false⟩ :=
  ⟨rfl, rfl, rfl⟩

theorem pairwise_le_of_all_eq {l : List Nat} {v : Nat} (h : ∀ x ∈ l, x = v) :
    List.Pairwise (fun a b => a ≤ b) l := by
  induction l with
  | nil => exact List.Pairwise.nil
  | cons a l ih =>
    refine List.Pairwise.cons ?_ (ih fun x hx => h x (List.mem_cons_of_mem _ hx))
    intro b hb
    rw [h a (List.mem_cons_self a l), h b (List.mem_cons_of_mem _ hb)]

theorem filterMap_key_sublist {β : Type} (f : Nat → Option β) (key : β → Nat)
    (l : List Nat) (hkey : ∀ j c, f j = some c → key c = j) :
    List.Sublist ((l.filterMap f).map key) l := by
  induction l with
  | nil => simp
  | cons a l ih =>
    rw [List.filterMap_cons]
    cases hf : f a with
    | none => exact ih.cons a
    | some c =>
      rw [List.map_cons, hkey a c hf]
      exact ih.cons₂ a

theorem mem_eventTags_eventsForChange {hasNotifier : Bool}
    {sendFails : Nat → Bool} {c : Nat × String × String} {x : Nat}
    (h : x ∈ eventTags (eventsForChange hasNotifier sendFails c)) : x = c.1 := by
  cases hasNotifier with
  | false =>
    simp [eventsForChange, eventTags, eventIdx] at h
    exact h
  | true =>
    cases hsf : sendFails c.1 <;>
      simp [eventsForChange, eventTags, eventIdx, hsf] at h <;> exact h

theorem mem_eventTags_flatMap {cs : List (Nat × String × String)}
    {hasNotifier : Bool} {sendFails : Nat → Bool} {b : Nat}
    (h : b ∈ eventTags (cs.flatMap (eventsForChange hasNotifier sendFails))) :
    ∃ c ∈ cs, b = c.1 := by
  induction cs with
  | nil => cases h
  | cons c cs ih =>
    rw [List.flatMap_cons] at h
    unfold eventTags at h
    rw [List.filterMap_append] at h
    cases List.mem_append.mp h with
    | inl hin =>
      exact ⟨c, List.mem_cons_self c cs, mem_eventTags_eventsForChange hin⟩
    | inr hin =>
      obtain ⟨c', hc', hb⟩ := ih hin
      exact ⟨c', List.mem_cons_of_mem _ hc', hb⟩

theorem eventTags_flatMap_pairwise (cs : List (Nat × String × String))
    (hasNotifier : Bool) (sendFails : Nat → Bool)
    (h : List.Pairwise (fun a b => a < b) (cs.map (fun c => c.1))) :
    List.Pairwise (fun a b => a ≤ b)
      (eventTags (cs.flatMap (eventsForChange hasNotifier sendFails))) := by
  induction cs with
  | nil => exact List.Pairwise.nil
  | cons c cs ih =>
    rw [List.flatMap_cons]
    unfold eventTags
    rw [List.filterMap_append, List.pairwise_append]
    rw [List.map_cons, List.pairwise_cons] at h
    refine ⟨?_, ih h.2, ?_⟩
    · exact pairwise_le_of_all_eq fun x hx => mem_eventTags_eventsForChange hx
    · intro a ha b hb
      have hac : a = c.1 := mem_eventTags_eventsForChange ha
      obtain ⟨c', hc', hbc⟩ := mem_eventTags_flatMap hb
      have : c.1 < c'.1 := h.1 c'.1 (List.mem_map_of_mem (fun c => c.1) hc')
      rw [hac, hbc]
      exact Nat.le_of_lt this

/-- C3 counterexample: the interactive selector preserves click order, so
clicking button 1 then button 0 stores the TargetSet `[1, 0]`; in an iteration
where both targets changed, the notifications are emitted in stored order
(tags `[1, 0]`), which is not ascending. -/
theorem c3_counterexample :
    selection_after_clicks [1, 0] = [1, 0]
    ∧ eventTags (loop_body [1, 0] [(0, "a"), (1, "b")] ["x", "y"] false
        (fun _ => false)).1 = [1, 0]
    ∧ ¬ List.Pairwise (fun a b => a ≤ b)
        (eventTags (loop_body [1, 0] [(0, "a"), (1, "b")] ["x", "y"] false
          (fun _ => false)).1) := by
  have htags : eventTags (loop_body [1, 0] [(0, "a"), (1, "b")] ["x", "y"]
      false (fun _ => false)).1 = [1, 0] := rfl
  refine ⟨rfl, htags, ?_⟩
  rw [htags]
  decide

/-- C3 amended: notifications within one iteration follow the stored TargetSet
order; whenever the stored TargetSet is strictly ascending (as the legacy
selector guarantees by sorting), the notification tags of the iteration are
ascending. -/
theorem c3_sorted_targets_ascending (targets : List Nat)
    (orig : List (Nat × String)) (buttons : List String) (hasNotifier : Bool)
    (sendFails : Nat → Bool)
    (hsort : List.Pairwise (fun a b => a < b) targets) :
    List.Pairwise (fun a b => a ≤ b)
      (eventTags (loop_body targets orig buttons hasNotifier sendFails).1) := by
  cases hcc : (check_button_changes targets orig buttons).isEmpty with
  | true =>
    rw [loop_body_of_empty targets orig buttons hasNotifier sendFails hcc]
    exact List.Pairwise.nil
  | false =>
    rw [loop_body_of_nonempty targets orig buttons hasNotifier sendFails hcc]
    show List.Pairwise (fun a b => a ≤ b)
      (eventTags (notify_changes hasNotifier sendFails
        (check_button_changes targets orig buttons)))
    unfold notify_changes
    rw [hcc]
    simp only [Bool.false_eq_true, if_false]
    apply eventTags_flatMap_pairwise
    have hcheq : check_button_changes targets orig buttons
        = targets.filterMap (checkOne orig buttons) := by
      unfold check_button_changes
      cases hg : (targets.isEmpty || orig.isEmpty) with
      | true =>
        exfalso
        unfold check_button_changes at hcc
        rw [hg] at hcc
        simp at hcc
      | false => simp
    rw [hcheq]
    exact List.Pairwise.sublist
      (filterMap_key_sublist (checkOne orig buttons) (fun c => c.1) targets
        fun j c hc => checkOne_fst hc) hsort

/-- Witness for the amended C3: an ascending TargetSet with two changes. -/
theorem c3_sorted_targets_ascending_witness :
    List.Pairwise (fun a b => a ≤ b)
      (eventTags (loop_body [0, 1] [(0, "a"), (1, "b")] ["x", "y"] false
        (fun _ => false)).1) :=
  c3_sorted_targets_ascending [0, 1] [(0, "a"), (1, "b")] ["x", "y"] false
    (fun _ => false) (by decide)

/-- C4 counterexample: the claimed chat format does not hold for the
`ButtonMonitor` notifier path: a change `(0, "a", "b")` with a notifier sends
the multi-line `From:`/`To:` message, not `"🔔 Button 1 changed to: b"`; and
the console fallback starts with the mis-encoded bell, so it differs from
`"\n🔔 Button 1 changed: 'a' -> 'b'"`. -/
theorem c4_counterexample :
    notify_changes true (fun _ => false) [(0, "a", "b")]
        = [.sendAttempt 0 (chatMsg 0 "a" "b") true]
    ∧ chatMsg 0 "a" "b" ≠ "🔔 Button 1 changed to: b"
    ∧ consoleMsg 0 "a" "b" ≠ "\n🔔 Button 1 changed: 'a' -> 'b'" := by
  refine ⟨rfl, ?_, ?_⟩ <;> decide

/-- C4 amended: the `TelegramNotifier.notify_button_clicked` chat message is
exactly `"🔔 Button <n> changed to: <text>"`; every notification event an
iteration of the monitor emits stems from a real change on the page and uses
the `ButtonMonitor` formats: chat sends are exactly
`"<bellMojibake> Button <i+1> changed:\nFrom: '<old>'\nTo: '<new>'"` and
console fallbacks exactly
`"\n<bellMojibake> Button <i+1> changed: '<old>' -> '<new>'"`, where
`bellMojibake` is the four-character mis-encoded bell, not `"🔔"`. -/
theorem c4_message_formats (n : Nat) (text : String) (targets : List Nat)
    (orig : List (Nat × String)) (buttons : List String) (hasNotifier : Bool)
    (sendFails : Nat → Bool) :
    notify_button_clicked_message n text
        = "🔔 Button " ++ toString n ++ " changed to: " ++ text
    ∧ ∀ e ∈ (loop_body targets orig buttons hasNotifier sendFails).1,
        ∃ i old_text new_text,
          i ∈ targets ∧ buttons[i]? = some new_text
          ∧ lookupText orig i = some old_text ∧ new_text ≠ old_text
          ∧ (e = .sendAttempt i (bellMojibake ++ " Button " ++ toString (i+1)
                ++ " changed:\nFrom: '" ++ old_text ++ "'\nTo: '" ++ new_text
                ++ "'") (!sendFails i)
             ∨ e = .consolePrint i ("\n" ++ bellMojibake ++ " Button "
                ++ toString (i+1) ++ " changed: '" ++ old_text ++ "' -> '"
                ++ new_text ++ "'")) := by
  refine ⟨rfl, ?_⟩
  intro e he
  cases hcc : (check_button_changes targets orig buttons).isEmpty with
  | true =>
    rw [loop_body_of_empty targets orig buttons hasNotifier sendFails hcc] at he
    cases he
  | false =>
    rw [loop_body_of_nonempty targets orig buttons hasNotifier sendFails hcc]
      at he
    have he2 : e ∈ notify_changes hasNotifier sendFails
        (check_button_changes targets orig buttons) := he
    unfold notify_changes at he2
    rw [hcc] at he2
    simp only [Bool.false_eq_true, if_false] at he2
    obtain ⟨c, hc, hec⟩ := List.mem_flatMap.mp he2
    obtain ⟨j, hj, hcj⟩ := mem_check_button_changes hc
    have hcfst : c.1 = j := checkOne_fst hcj
    obtain ⟨hbtn, horig, hne⟩ := checkOne_inv hcj
    refine ⟨c.1, c.2.1, c.2.2, ?_, ?_, ?_, hne, ?_⟩
    · rw [hcfst]
      exact hj
    · rw [hcfst]
      exact hbtn
    · rw [hcfst]
      exact horig
    · cases hasNotifier with
      | false =>
        simp only [eventsForChange, Bool.false_eq_true, if_false,
          List.mem_singleton] at hec
        subst hec
        exact Or.inr rfl
      | true =>
        cases hsf : sendFails c.1 with
        | false =>
          simp only [eventsForChange, if_true, hsf, Bool.false_eq_true,
            if_false, List.mem_singleton] at hec
          subst hec
          exact Or.inl rfl
        | true =>
          simp only [eventsForChange, if_true, hsf, List.mem_cons,
            List.mem_singleton, List.not_mem_nil, or_false] at hec
          cases hec with
          | inl h1 =>
            subst h1
            exact Or.inl rfl
          | inr h2 =>
            subst h2
            exact Or.inr rfl

/-- Witness for the amended C4 at the console path with one change. -/
theorem c4_message_formats_witness :
    notify_button_clicked_message 1 "BOOK NOW"
        = "🔔 Button " ++ toString 1 ++ " changed to: " ++ "BOOK NOW"
    ∧ ∃ i old_text new_text,
        i ∈ [0] ∧ ["b"][i]? = some new_text
        ∧ lookupText [(0, "a")] i = some old_text ∧ new_text ≠ old_text
        ∧ (NotifyEvent.consolePrint 0 (consoleMsg 0 "a" "b")
              = .sendAttempt i (bellMojibake ++ " Button " ++ toString (i+1)
                ++ " changed:\nFrom: '" ++ old_text ++ "'\nTo: '" ++ new_text
                ++ "'") true
           ∨ NotifyEvent.consolePrint 0 (consoleMsg 0 "a" "b")
              = .consolePrint i ("\n" ++ bellMojibake ++ " Button "
                ++ toString (i+1) ++ " changed: '" ++ old_text ++ "' -> '"
                ++ new_text ++ "'")) := by
  have h := c4_message_formats 1 "BOOK NOW" [0] [(0, "a")] ["b"] false
    (fun _ => false)
  refine ⟨h.1, ?_⟩
  exact h.2 (NotifyEvent.consolePrint 0 (consoleMsg 0 "a" "b")) (by decide)

/-- C9 counterexample: `navigate_to` with no driver and a raising
`initialize_driver` propagates the exception to the caller — the
initialization call at line 487 is outside the `try` block. -/
theorem c9_counterexample : navigate_to false none false = NavResult.raised :=
  rfl

/-- C9 amended: `refresh_page` never propagates an exception, and
`navigate_to` propagates one exactly when no driver exists and driver
initialization raises; every page-load or refresh error is reported only
through the boolean result (`False`). -/
theorem c9_error_reporting (hasDriver refreshRaises hasLastUrl getRaises : Bool)
    (initOutcome : Option Bool) :
    refresh_page hasDriver refreshRaises hasLastUrl initOutcome getRaises
        ≠ NavResult.raised
    ∧ (navigate_to hasDriver initOutcome getRaises = NavResult.raised ↔
        hasDriver = false ∧ initOutcome = none)
    ∧ navigate_to true initOutcome true = NavResult.returned false := by
  cases initOutcome with
  | none =>
    cases hasDriver <;> cases refreshRaises <;> cases hasLastUrl <;>
      cases getRaises <;> exact ⟨by decide, by decide, by decide⟩
  | some b =>
    cases b <;> cases hasDriver <;> cases refreshRaises <;>
      cases hasLastUrl <;> cases getRaises <;>
      exact ⟨by decide, by decide, by decide⟩

theorem lookupKey_setKey_self (s : List (String × SVal)) (key : String)
    (v : SVal) : lookupKey (setKey s key v) key = some v := by
  induction s with
  | nil => simp [setKey, lookupKey]
  | cons p rest ih =>
    by_cases h : p.1 = key
    · simp [setKey, h, lookupKey]
    · simp [setKey, h, lookupKey, ih]

/-- C10: every `SettingsManager` mutation applies to the in-memory mapping
regardless of the disk write result: the resulting manager for a failed write
(`False`) equals the one for a successful write, the failure is only reported
through the returned boolean, and subsequent reads return the new value. -/
theorem c10_mutation_before_write (m : SettingsManager) (key : String)
    (value : SVal) (d : List (String × SVal)) (a b c e : String)
    (x y w h : Option Int) :
    ((m.set key value false).1.get key none = some value
      ∧ (m.set key value false).1 = (m.set key value true).1
      ∧ (m.set key value false).2 = false)
    ∧ ((m.update ((key, value) :: d) false).1
          = (m.update ((key, value) :: d) true).1
      ∧ (m.update [(key, value)] false).1.get key none = some value)
    ∧ ((m.update_telegram_settings a b c e false).1.get_telegram_settings
          = SVal.telegram a b c e
      ∧ (m.update_telegram_settings a b c e false).1
          = (m.update_telegram_settings a b c e true).1)
    ∧ ((m.save_window_position x y w h false).1.get_window_settings
          = SVal.window x y w h
      ∧ (m.save_window_position x y w h false).1
          = (m.save_window_position x y w h true).1) := by
  refine ⟨⟨?_, rfl, rfl⟩, ⟨rfl, ?_⟩, ⟨?_, rfl⟩, ⟨?_, rfl⟩⟩
  · show (match lookupKey (setKey m.settings key value) key with
      | some v => some v
      | none => none) = some value
    rw [lookupKey_setKey_self]
  · show (match lookupKey (setKey m.settings key value) key with
      | some v => some v
      | none => none) = some value
    rw [lookupKey_setKey_self]
  · show (match lookupKey (setKey m.settings "telegram"
        (SVal.telegram a b c e)) "telegram" with
      | some v => v
      | none => SVal.telegram "" "" "" "") = SVal.telegram a b c e
    rw [lookupKey_setKey_self]
  · show (match lookupKey (setKey m.settings "window" (SVal.window x y w h))
        "window" with
      | some v => v
      | none => SVal.window none none (some 600) (some 900)) = SVal.window x y w h
    rw [lookupKey_setKey_self]

end WebButtonWatcher
